import Mathlib

/-!
Verification of the employee-dashboard data pipeline (app.py): column
coercion, derived columns (`work_life_balance_score`, `education_level_num`,
`count`), and the sidebar filter `filtered_df`.

Numbers are modelled as rationals.  A CSV cell of one of the three columns
passed through `pd.to_numeric(..., errors='coerce')` is modelled by `Cell`:
either a numeric value (a cell pandas coerces successfully, including numeric
strings) or a non-numeric string, which coercion turns into the missing-value
marker `NaN`, modelled as `none`.  A missing value compares as non-matching
(`False`) in pandas boolean masks, which `optGe`/`optLe` reproduce.
-/

namespace Dashboard

/-- A raw CSV cell of a column that `load_data` passes through
`pd.to_numeric(..., errors='coerce')`: either a value pandas can coerce to a
number, or a non-numeric string. -/
inductive Cell where
  | num (q : ℚ)
  | nonNumeric (s : String)
deriving DecidableEq

/-- `pd.to_numeric(..., errors='coerce')` on one cell: a coercible cell
becomes its numeric value, anything else becomes the missing marker. -/
def Cell.toNumeric : Cell → Option ℚ
  | .num q => some q
  | .nonNumeric _ => none

/-- One data row of `work.csv` as read by `pd.read_csv`, before the cleaning
and derivation steps of `load_data` (app.py lines 20-26).  The hour, stress,
satisfaction and productivity columns are numeric in the dataset and are used
directly in arithmetic by the code, so they are modelled as rationals. -/
structure RawRecord where
  departamento : String
  nivel_educacion : String
  zona_geografica : String
  ciudad : String
  modalidad_trabajo : String
  genero : String
  estado_civil : String
  edad : Cell
  salario_anual : Cell
  experiencia_anos : Cell
  horas_semanales : ℚ
  horas_sueno_noche : ℚ
  horas_ocio_semana : ℚ
  horas_ejercicio_semana : ℚ
  nivel_estres : ℚ
  satisfaccion_laboral : ℚ
  productividad_score : ℚ
deriving DecidableEq

/-- A row of the dataframe returned by `load_data`: the coerced numeric
columns (`Option ℚ`, `none` = NaN) and the three columns added by
app.py lines 28-44. -/
structure Record where
  departamento : String
  nivel_educacion : String
  zona_geografica : String
  ciudad : String
  modalidad_trabajo : String
  genero : String
  estado_civil : String
  edad : Option ℚ
  salario_anual : Option ℚ
  experiencia_anos : Option ℚ
  horas_semanales : ℚ
  horas_sueno_noche : ℚ
  horas_ocio_semana : ℚ
  horas_ejercicio_semana : ℚ
  nivel_estres : ℚ
  satisfaccion_laboral : ℚ
  productividad_score : ℚ
  work_life_balance_score : ℚ
  education_level_num : Option ℚ
  count : ℚ
deriving DecidableEq

/-- The `education_order` dictionary of app.py lines 35-40, as used by
`df['nivel_educacion'].map(education_order)`: the four known categories map
to their rank, any other string maps to the missing marker. -/
def education_order (s : String) : Option ℚ :=
  if s = "Bachillerato" then some 1
  else if s = "Licenciatura" then some 2
  else if s = "Maestría" then some 3
  else if s = "Doctorado" then some 4
  else none

/-- The per-row work of `load_data` (app.py lines 23-44): coerce
`salario_anual`, `edad`, `experiencia_anos`; compute
`work_life_balance_score`; map `nivel_educacion` through `education_order`;
add the constant `count` column. -/
def deriveRecord (r : RawRecord) : Record :=
  { departamento := r.departamento
    nivel_educacion := r.nivel_educacion
    zona_geografica := r.zona_geografica
    ciudad := r.ciudad
    modalidad_trabajo := r.modalidad_trabajo
    genero := r.genero
    estado_civil := r.estado_civil
    edad := r.edad.toNumeric
    salario_anual := r.salario_anual.toNumeric
    experiencia_anos := r.experiencia_anos.toNumeric
    horas_semanales := r.horas_semanales
    horas_sueno_noche := r.horas_sueno_noche
    horas_ocio_semana := r.horas_ocio_semana
    horas_ejercicio_semana := r.horas_ejercicio_semana
    nivel_estres := r.nivel_estres
    satisfaccion_laboral := r.satisfaccion_laboral
    productividad_score := r.productividad_score
    work_life_balance_score :=
      r.horas_sueno_noche * 0.4 + r.horas_ocio_semana * 0.3 +
        (50 - r.horas_semanales) * 0.3
    education_level_num := education_order r.nivel_educacion
    count := 1 }

/-- `load_data` after `pd.read_csv`: the cleaning and derivation steps
applied to every row, preserving row order and count. -/
def load_data (rows : List RawRecord) : List Record :=
  rows.map deriveRecord

/-- Re-running the cleaning and derivation steps of `load_data` on an
already-derived dataframe: `pd.to_numeric` on an already-numeric column is
the identity, and the three derived columns are recomputed from the source
columns only, overwriting the previous values. -/
def deriveAgain (r : Record) : Record :=
  { r with
    work_life_balance_score :=
      r.horas_sueno_noche * 0.4 + r.horas_ocio_semana * 0.3 +
        (50 - r.horas_semanales) * 0.3
    education_level_num := education_order r.nivel_educacion
    count := 1 }

/-- The sidebar filter state of app.py lines 100-136: four multiselects and
the two (low, high) slider pairs. -/
structure FilterSpec where
  departments : List String
  education_levels : List String
  zones : List String
  work_modes : List String
  age_lo : ℚ
  age_hi : ℚ
  salary_lo : ℚ
  salary_hi : ℚ
deriving DecidableEq

/-- A pandas `series >= lo` comparison on one entry: `NaN >= lo` is `False`. -/
def optGe (x : Option ℚ) (lo : ℚ) : Bool :=
  match x with
  | some v => decide (lo ≤ v)
  | none => false

/-- A pandas `series <= hi` comparison on one entry: `NaN <= hi` is `False`. -/
def optLe (x : Option ℚ) (hi : ℚ) : Bool :=
  match x with
  | some v => decide (v ≤ hi)
  | none => false

/-- The row-level conjunction of the boolean mask of app.py lines 139-148:
four `isin` membership tests and the four inclusive range comparisons. -/
def matchesFilter (s : FilterSpec) (r : Record) : Bool :=
  s.departments.contains r.departamento &&
  s.education_levels.contains r.nivel_educacion &&
  s.zones.contains r.zona_geografica &&
  s.work_modes.contains r.modalidad_trabajo &&
  optGe r.edad s.age_lo && optLe r.edad s.age_hi &&
  optGe r.salario_anual s.salary_lo && optLe r.salario_anual s.salary_hi

/-- `filtered_df = df[mask]` (app.py lines 139-148): keep, in order, the rows
whose mask entry is `True`. -/
def filtered_df (s : FilterSpec) (rows : List Record) : List Record :=
  rows.filter (matchesFilter s)

/-- Modelled from the spec (section 4.3 wording, for the refinement claim
C5): "inclusive range membership" on a possibly-missing numeric value, a
record being "excluded from any range predicate it cannot evaluate (treat as
non-matching)". -/
def specInRange (x : Option ℚ) (lo hi : ℚ) : Prop :=
  match x with
  | some v => lo ≤ v ∧ v ≤ hi
  | none => False

instance (x : Option ℚ) (lo hi : ℚ) : Decidable (specInRange x lo hi) :=
  match x with
  | some q => inferInstanceAs (Decidable (lo ≤ q ∧ q ≤ hi))
  | none => isFalse fun h => h

/-- Modelled from the spec (section 4.3 wording, for the refinement claim
C5): a record satisfies the filter specification when it satisfies "the
conjunction of set-membership on each categorical field ... and inclusive
range membership on age and salary". -/
def specMatches (s : FilterSpec) (r : Record) : Prop :=
  r.departamento ∈ s.departments ∧
  r.nivel_educacion ∈ s.education_levels ∧
  r.zona_geografica ∈ s.zones ∧
  r.modalidad_trabajo ∈ s.work_modes ∧
  specInRange r.edad s.age_lo s.age_hi ∧
  specInRange r.salario_anual s.salary_lo s.salary_hi

instance (s : FilterSpec) (r : Record) : Decidable (specMatches s r) :=
  inferInstanceAs (Decidable (_ ∧ _ ∧ _ ∧ _ ∧ _ ∧ _))

/-- A fixed sample row used as the base of concrete witnesses: every field
numeric, known categories. -/
def sampleRaw : RawRecord :=
  { departamento := "Ventas"
    nivel_educacion := "Licenciatura"
    zona_geografica := "Norte"
    ciudad := "Monterrey"
    modalidad_trabajo := "Remoto"
    genero := "F"
    estado_civil := "Soltero"
    edad := .num 30
    salario_anual := .num 100000
    experiencia_anos := .num 5
    horas_semanales := 40
    horas_sueno_noche := 8
    horas_ocio_semana := 10
    horas_ejercicio_semana := 3
    nivel_estres := 4
    satisfaccion_laboral := 7
    productividad_score := 8 }

/-- A filter specification that the derived `sampleRaw` satisfies. -/
def sampleSpec : FilterSpec :=
  { departments := ["Ventas"]
    education_levels := ["Licenciatura"]
    zones := ["Norte"]
    work_modes := ["Remoto"]
    age_lo := 30
    age_hi := 30
    salary_lo := 100000
    salary_hi := 100000 }

/-- A fully concrete derived row, used to instantiate theorems about the
filter at concrete inputs. -/
def sampleRecord : Record :=
  { departamento := "Ventas"
    nivel_educacion := "Licenciatura"
    zona_geografica := "Norte"
    ciudad := "Monterrey"
    modalidad_trabajo := "Remoto"
    genero := "F"
    estado_civil := "Soltero"
    edad := some 30
    salario_anual := some 100000
    experiencia_anos := some 5
    horas_semanales := 40
    horas_sueno_noche := 8
    horas_ocio_semana := 10
    horas_ejercicio_semana := 3
    nivel_estres := 4
    satisfaccion_laboral := 7
    productividad_score := 8
    work_life_balance_score := 9
    education_level_num := some 2
    count := 1 }

/-- A second concrete derived row with a different age and salary. -/
def sampleRecord2 : Record :=
  { sampleRecord with edad := some 45, salario_anual := some 200000 }

/-- A raw row whose age cell is a non-numeric string (so its age coercion
fails) and whose salary is 200000. -/
def rawBadAge : RawRecord :=
  { sampleRaw with edad := .nonNumeric "unknown", salario_anual := .num 200000 }

/-- The full-range, full-set specification for the two-row dataset
`load_data [sampleRaw, rawBadAge]`: every categorical value selected, the
age bounds equal to the minimum and maximum of the (one) present age, the
salary bounds equal to the dataset salary extremes. -/
def fullSpecBadAge : FilterSpec :=
  { departments := ["Ventas"]
    education_levels := ["Licenciatura"]
    zones := ["Norte"]
    work_modes := ["Remoto"]
    age_lo := 30
    age_hi := 30
    salary_lo := 100000
    salary_hi := 200000 }

/-- The full-range, full-set specification for the all-numeric dataset
`[sampleRecord, sampleRecord2]`. -/
def fullSpecSample : FilterSpec :=
  { departments := ["Ventas"]
    education_levels := ["Licenciatura"]
    zones := ["Norte"]
    work_modes := ["Remoto"]
    age_lo := 30
    age_hi := 45
    salary_lo := 100000
    salary_hi := 200000 }

/-- One row of work.csv as consumed by `apply_filters` in dashboard.py:
only the columns that filter touches, with the hire date (converted by
`pd.to_datetime`) modelled as a rational timestamp, `none` = NaT/NaN. -/
structure Record2 where
  departamento : String
  genero : String
  modalidad_trabajo : String
  edad : Option ℚ
  fecha_contratacion : Option ℚ
deriving DecidableEq

/-- The sidebar state of dashboard.py lines 58-98: three multiselects, the
age slider pair, and the optional hire-date range. -/
structure Spec2 where
  deptos : List String
  generos : List String
  modalidades : List String
  age_lo : ℚ
  age_hi : ℚ
  date_range : Option (ℚ × ℚ)
deriving DecidableEq

/-- The base boolean mask of `apply_filters` (dashboard.py lines 102-108). -/
def matchesBase (s : Spec2) (r : Record2) : Bool :=
  s.deptos.contains r.departamento &&
  s.generos.contains r.genero &&
  s.modalidades.contains r.modalidad_trabajo &&
  optGe r.edad s.age_lo && optLe r.edad s.age_hi

/-- The hire-date mask of `apply_filters` (dashboard.py lines 110-115); when
no date range is set, every row passes. -/
def matchesDate (dr : Option (ℚ × ℚ)) (r : Record2) : Bool :=
  match dr with
  | some (lo, hi) =>
    optGe r.fecha_contratacion lo && optLe r.fecha_contratacion hi
  | none => true

/-- `apply_filters` (dashboard.py lines 101-117): the base mask over the
input rows, then, when a date range is set, the hire-date mask over the
already-filtered rows. -/
def apply_filters (s : Spec2) (rows : List Record2) : List Record2 :=
  match s.date_range with
  | some (lo, hi) =>
    (rows.filter (matchesBase s)).filter fun r =>
      optGe r.fecha_contratacion lo && optLe r.fecha_contratacion hi
  | none => rows.filter (matchesBase s)

/-- A raw record whose three coercible cells all hold the non-numeric string
`s`: the shape of a row on which every numeric coercion fails. -/
def failAllCoercions (r : RawRecord) (s : String) : RawRecord :=
  { r with
    edad := .nonNumeric s
    salario_anual := .nonNumeric s
    experiencia_anos := .nonNumeric s }

/-- C1: for every record the derived work_life_balance_score equals exactly
sleep*0.4 + leisure*0.3 + (50 - weekly)*0.3, with no clamping: it can be
negative or exceed 10 for extreme inputs; the literal instance sleep=8,
leisure=10, weekly=40 yields 9.2. -/
theorem c1_work_life_balance_formula :
    (∀ r : RawRecord, (deriveRecord r).work_life_balance_score =
      r.horas_sueno_noche * 0.4 + r.horas_ocio_semana * 0.3 +
        (50 - r.horas_semanales) * 0.3) ∧
    (deriveRecord sampleRaw).work_life_balance_score = 9.2 ∧
    (∃ r : RawRecord, (deriveRecord r).work_life_balance_score < 0) ∧
    (∃ r : RawRecord, 10 < (deriveRecord r).work_life_balance_score) := by
  refine ⟨fun r => rfl, ?_, ⟨{ sampleRaw with horas_semanales := 1000 }, ?_⟩,
    ⟨{ sampleRaw with horas_ocio_semana := 100 }, ?_⟩⟩ <;>
    norm_num [deriveRecord, sampleRaw]

/-- C4: the education rank mapping is total over the four known categories
(Bachillerato 1, Licenciatura 2, Maestría 3, Doctorado 4); any other
education string derives a missing rank, never an exception. -/
theorem c4_education_rank_total :
    education_order "Bachillerato" = some 1 ∧
    education_order "Licenciatura" = some 2 ∧
    education_order "Maestría" = some 3 ∧
    education_order "Doctorado" = some 4 ∧
    ∀ r : RawRecord,
      r.nivel_educacion ∉ ["Bachillerato", "Licenciatura", "Maestría", "Doctorado"] →
        (deriveRecord r).education_level_num = none := by
  refine ⟨rfl, rfl, rfl, rfl, fun r h => ?_⟩
  simp only [List.mem_cons, List.not_mem_nil, or_false, not_or] at h
  obtain ⟨h1, h2, h3, h4⟩ := h
  simp [deriveRecord, education_order, h1, h2, h3, h4]

/-- C6: filtering is idempotent: applying the same filter specification to an
already-filtered list returns it unchanged. -/
theorem c6_filter_idempotent :
    ∀ (s : FilterSpec) (rows : List Record),
      filtered_df s (filtered_df s rows) = filtered_df s rows := by
  intro s rows
  simp [filtered_df, List.filter_filter]

/-- C9: a numeric coercion failure on age, salary or experience yields the
missing marker rather than a crash, and the record keeps all its original
string fields even when every numeric coercion fails. -/
theorem c9_coercion_failure_degrades_field :
    ∀ (r : RawRecord) (s : String),
      (deriveRecord (failAllCoercions r s)).edad = none ∧
      (deriveRecord (failAllCoercions r s)).salario_anual = none ∧
      (deriveRecord (failAllCoercions r s)).experiencia_anos = none ∧
      (deriveRecord (failAllCoercions r s)).departamento = r.departamento ∧
      (deriveRecord (failAllCoercions r s)).nivel_educacion = r.nivel_educacion ∧
      (deriveRecord (failAllCoercions r s)).zona_geografica = r.zona_geografica ∧
      (deriveRecord (failAllCoercions r s)).ciudad = r.ciudad ∧
      (deriveRecord (failAllCoercions r s)).modalidad_trabajo = r.modalidad_trabajo ∧
      (deriveRecord (failAllCoercions r s)).genero = r.genero ∧
      (deriveRecord (failAllCoercions r s)).estado_civil = r.estado_civil :=
  fun _ _ => ⟨rfl, rfl, rfl, rfl, rfl, rfl, rfl, rfl, rfl, rfl⟩

/-- The row-level boolean mask coincides with the specification-level
predicate of section 4.3: shared bridge between the filter theorems. -/
lemma matchesFilter_eq_decide_specMatches (s : FilterSpec) (r : Record) :
    matchesFilter s r = decide (specMatches s r) := by
  cases hE : r.edad <;> cases hS : r.salario_anual <;>
    simp [matchesFilter, specMatches, optGe, optLe, specInRange, hE, hS,
      Bool.and_assoc]

/-- C5: the filter returns exactly the subsequence of rows satisfying the
conjunction of set-membership on each categorical field and inclusive range
membership on age and salary (missing values non-matching); the output is a
subsequence of the input in the original order, and an empty selected set
matches no record. -/
theorem c5_filter_refines_spec :
    (∀ (s : FilterSpec) (rows : List Record),
      filtered_df s rows = rows.filter (fun r => decide (specMatches s r)) ∧
      (filtered_df s rows).Sublist rows ∧
      (∀ r ∈ filtered_df s rows, specMatches s r) ∧
      (s.departments = [] → filtered_df s rows = [])) ∧
    (∀ (s : Spec2) (rows : List Record2),
      apply_filters s rows =
        rows.filter (fun r => matchesBase s r && matchesDate s.date_range r) ∧
      (apply_filters s rows).Sublist rows ∧
      (s.deptos = [] → apply_filters s rows = [])) := by
  constructor
  · intro s rows
    have hfun : matchesFilter s = fun r => decide (specMatches s r) :=
      funext (matchesFilter_eq_decide_specMatches s)
    refine ⟨by rw [filtered_df, hfun], List.filter_sublist rows, fun r hr => ?_,
      fun h => ?_⟩
    · have hm := (List.mem_filter.mp hr).2
      rw [matchesFilter_eq_decide_specMatches] at hm
      exact of_decide_eq_true hm
    · exact List.filter_eq_nil_iff.mpr fun r _ => by simp [matchesFilter, h]
  · intro s rows
    have hempty : s.deptos = [] → ∀ r : Record2, matchesBase s r = false :=
      fun h r => by simp [matchesBase, h]
    cases hdr : s.date_range with
    | none =>
      refine ⟨by simp [apply_filters, hdr, matchesDate], ?_, fun h => ?_⟩
      · simp only [apply_filters, hdr]
        exact List.filter_sublist rows
      · simp only [apply_filters, hdr]
        exact List.filter_eq_nil_iff.mpr fun r _ => by simp [hempty h r]
    | some lohi =>
      obtain ⟨lo, hi⟩ := lohi
      refine ⟨?_, ?_, fun h => ?_⟩
      · simp only [apply_filters, hdr, matchesDate, List.filter_filter]
        exact List.filter_congr fun r _ => Bool.and_comm _ _
      · simp only [apply_filters, hdr]
        exact (List.filter_sublist _).trans (List.filter_sublist rows)
      · have hinner : rows.filter (matchesBase s) = [] :=
          List.filter_eq_nil_iff.mpr fun r _ => by simp [hempty h r]
        simp only [apply_filters, hdr, hinner, List.filter_nil]

/-- C7: when the salary lower bound exceeds every salary present in the
dataset, the filter returns the empty sequence (and raises no error). -/
theorem c7_salary_lo_above_max_empty (s : FilterSpec) (rows : List Record)
    (h : ∀ r ∈ rows, ∀ q ∈ r.salario_anual, q < s.salary_lo) :
    filtered_df s rows = [] := by
  refine List.filter_eq_nil_iff.mpr fun r hr => ?_
  cases hq : r.salario_anual with
  | none => simp [matchesFilter, optGe, hq]
  | some q =>
    have hlt : ¬ s.salary_lo ≤ q := not_le.mpr (h r hr q (by simp [hq]))
    simp [matchesFilter, optGe, hq, hlt]

/-- C7 witness: a salary lower bound of 200000 on a one-row dataset whose
only salary is 100000 filters everything out. -/
theorem c7_salary_lo_above_max_empty_witness :
    filtered_df { sampleSpec with salary_lo := 200000 } [sampleRecord] = [] :=
  c7_salary_lo_above_max_empty { sampleSpec with salary_lo := 200000 }
    [sampleRecord] (by decide)

/-- C3: a record whose age cell fails numeric coercion derives a missing age,
satisfies no filter specification (the range comparisons are non-matching on
a missing value rather than an error), hence never appears in a filtered
result, yet still appears in the unfiltered derived listing. -/
theorem c3_missing_age_excluded_but_listed (raw : RawRecord) (s : String)
    (h : raw.edad = Cell.nonNumeric s) :
    (deriveRecord raw).edad = none ∧
    (∀ f : FilterSpec, matchesFilter f (deriveRecord raw) = false) ∧
    (∀ (f : FilterSpec) (rows : List Record),
      deriveRecord raw ∉ filtered_df f rows) ∧
    (∀ rows : List RawRecord, raw ∈ rows → deriveRecord raw ∈ load_data rows) := by
  have hnone : (deriveRecord raw).edad = none := by
    simp [deriveRecord, h, Cell.toNumeric]
  have hmatch : ∀ f : FilterSpec, matchesFilter f (deriveRecord raw) = false := by
    intro f
    simp [matchesFilter, optGe, hnone]
  refine ⟨hnone, hmatch, fun f rows hmem => ?_, fun rows hmem => ?_⟩
  · have := (List.mem_filter.mp hmem).2
    rw [hmatch f] at this
    exact Bool.false_ne_true this
  · exact List.mem_map_of_mem deriveRecord hmem

/-- C3 witness: the sample row with age cell "n/a". -/
theorem c3_missing_age_excluded_but_listed_witness :
    (deriveRecord { sampleRaw with edad := Cell.nonNumeric "n/a" }).edad = none ∧
    (∀ f : FilterSpec,
      matchesFilter f (deriveRecord { sampleRaw with edad := Cell.nonNumeric "n/a" }) = false) ∧
    (∀ (f : FilterSpec) (rows : List Record),
      deriveRecord { sampleRaw with edad := Cell.nonNumeric "n/a" } ∉ filtered_df f rows) ∧
    (∀ rows : List RawRecord,
      { sampleRaw with edad := Cell.nonNumeric "n/a" } ∈ rows →
        deriveRecord { sampleRaw with edad := Cell.nonNumeric "n/a" } ∈ load_data rows) :=
  c3_missing_age_excluded_but_listed { sampleRaw with edad := Cell.nonNumeric "n/a" }
    "n/a" rfl

/-- C10: a row of any filtered result has both its age and its salary
present: the missing marker fails both the lower-bound and the upper-bound
comparison, so a row with a missing age or salary can never appear in any
filtered result, whatever the specification. -/
theorem c10_filtered_rows_have_age_and_salary (f : FilterSpec)
    (rows : List Record) (r : Record) (h : r ∈ filtered_df f rows) :
    r.edad ≠ none ∧ r.salario_anual ≠ none ∧
    optGe none f.age_lo = false ∧ optLe none f.age_hi = false ∧
    optGe none f.salary_lo = false ∧ optLe none f.salary_hi = false := by
  have hm := (List.mem_filter.mp h).2
  refine ⟨fun hnone => ?_, fun hnone => ?_, rfl, rfl, rfl, rfl⟩ <;>
    simp [matchesFilter, optGe, hnone] at hm

/-- C10 witness: a concrete one-row dataset whose row passes the sample
specification. -/
theorem c10_filtered_rows_have_age_and_salary_witness :
    sampleRecord.edad ≠ none ∧ sampleRecord.salario_anual ≠ none ∧
    optGe none sampleSpec.age_lo = false ∧ optLe none sampleSpec.age_hi = false ∧
    optGe none sampleSpec.salary_lo = false ∧ optLe none sampleSpec.salary_hi = false :=
  c10_filtered_rows_have_age_and_salary sampleSpec [sampleRecord] sampleRecord
    (by decide)

/-- C8 counterexample: `load_data` adds a third computed column beyond the
composite score and the education rank — the constant `count` column set to
1 (app.py line 44) — so the derived record does not carry exactly two
additional computed fields. -/
theorem c8_third_count_column :
    (deriveRecord sampleRaw).count = 1 ∧
    (deriveRecord sampleRaw).education_level_num = some 2 ∧
    (deriveRecord sampleRaw).work_life_balance_score = 9.2 := by
  refine ⟨rfl, rfl, ?_⟩
  norm_num [deriveRecord, sampleRaw]

/-- C8 (amended): derivation is a pure, deterministic function producing the
same count of records with three additional computed fields (composite
score, education rank, and the constant count column), and it is idempotent:
re-running the cleaning and derivation on already-derived data changes
nothing, because the derived fields are recomputed from source fields only. -/
theorem c8_derivation_pure_idempotent :
    ∀ rows : List RawRecord,
      (load_data rows).length = rows.length ∧
      (load_data rows).map deriveAgain = load_data rows ∧
      ∀ r : RawRecord, deriveAgain (deriveRecord r) = deriveRecord r := by
  intro rows
  have hpt : ∀ r : RawRecord, deriveAgain (deriveRecord r) = deriveRecord r :=
    fun r => rfl
  have hcomp : deriveAgain ∘ deriveRecord = deriveRecord := funext hpt
  refine ⟨by simp [load_data], ?_, hpt⟩
  rw [load_data, List.map_map, hcomp]

/-- C2 counterexample: on the two-row dataset whose second row has a
non-numeric age cell, the full-range, full-set specification (bounds equal
to the present extremes, every categorical value selected) returns only one
of the two derived rows, not the entire derived dataset. -/
theorem c2_full_spec_drops_missing_age :
    (load_data [sampleRaw, rawBadAge]).length = 2 ∧
    (filtered_df fullSpecBadAge (load_data [sampleRaw, rawBadAge])).length = 1 ∧
    filtered_df fullSpecBadAge (load_data [sampleRaw, rawBadAge]) ≠
      load_data [sampleRaw, rawBadAge] := by
  have hlen : (filtered_df fullSpecBadAge (load_data [sampleRaw, rawBadAge])).length = 1 := by
    decide
  refine ⟨rfl, hlen, fun h => ?_⟩
  have h2 : (load_data [sampleRaw, rawBadAge]).length = 2 := rfl
  rw [h, h2] at hlen
  exact (by decide : (2 : Nat) ≠ 1) hlen

/-- C2 (amended): when every row's categorical values are among the selected
sets and every row's age and salary are present and inside the bounds — in
particular for the full-range, full-set specification over a dataset whose
age and salary coercions all succeeded — the filter returns the entire
derived dataset, in original order. -/
theorem c2_full_spec_returns_all (s : FilterSpec) (rows : List Record)
    (hd : ∀ r ∈ rows, r.departamento ∈ s.departments)
    (he : ∀ r ∈ rows, r.nivel_educacion ∈ s.education_levels)
    (hz : ∀ r ∈ rows, r.zona_geografica ∈ s.zones)
    (hw : ∀ r ∈ rows, r.modalidad_trabajo ∈ s.work_modes)
    (ha : ∀ r ∈ rows, specInRange r.edad s.age_lo s.age_hi)
    (hs : ∀ r ∈ rows, specInRange r.salario_anual s.salary_lo s.salary_hi) :
    filtered_df s rows = rows := by
  refine List.filter_eq_self.mpr fun r hr => ?_
  rw [matchesFilter_eq_decide_specMatches]
  exact decide_eq_true ⟨hd r hr, he r hr, hz r hr, hw r hr, ha r hr, hs r hr⟩

/-- C2 witness: the full-range, full-set specification over the concrete
all-numeric two-row dataset returns both rows in order. -/
theorem c2_full_spec_returns_all_witness :
    filtered_df fullSpecSample [sampleRecord, sampleRecord2] =
      [sampleRecord, sampleRecord2] :=
  c2_full_spec_returns_all fullSpecSample [sampleRecord, sampleRecord2]
    (by decide) (by decide) (by decide) (by decide) (by decide) (by decide)

end Dashboard
